import Mathlib

/-!
Verification development for the TPMS Analysis Dashboard CAN-bridge backend
(`Backend/app/services/pcan_service.py`, `Backend/app/routers/pcan.py`,
`06_TimerWrite_CSV.py`).

The Python service is shallowly embedded: pure helper functions become Lean
functions; the mutable `PCANService` object becomes an explicit `ServiceState`
record threaded through the operations; the log file on disk is modelled as a
`List Char`; results of calls into the external PCANBasic device library
(an opaque capability per the specification) are supplied as explicit
parameters.  Wall-clock timestamps produced by `datetime.now()` are abstracted
as opaque string parameters.
-/

set_option maxRecDepth 16000

namespace TPMS

/-! ## Python integer parsing

`int(s, 0)`, `int(s)` and `int(s, 16)` as used by the service.  The model
covers sign handling, the `0x`/`0o`/`0b` prefixes of base 0, the base-0
rejection of superfluous leading zeros in decimals, and surrounding
whitespace; digit-group underscores (accepted by CPython) are not modelled.
-/

/-- The whitespace set of Python `str.strip()`. -/
def isPySpace (c : Char) : Bool :=
  c = ' ' || c = '\t' || c = '\n' || c = '\r' || c = '\x0b' || c = '\x0c'

/-- Python `s.strip()`. -/
def pyStrip (s : String) : String :=
  ⟨((s.data.dropWhile isPySpace).reverse.dropWhile isPySpace).reverse⟩

/-- Python `s.lower()` on the ASCII range (identifiers in command scripts). -/
def pyLower (s : String) : String :=
  ⟨s.data.map (fun c => if 'A' ≤ c && c ≤ 'Z' then Char.ofNat (c.toNat + 32) else c)⟩

def isDigitChar (c : Char) : Bool := '0' ≤ c && c ≤ '9'

def digitVal (c : Char) : Nat := c.toNat - '0'.toNat

def decVal (c : Char) : Option Nat :=
  if isDigitChar c then some (digitVal c) else none

def hexVal (c : Char) : Option Nat :=
  if '0' ≤ c && c ≤ '9' then some (c.toNat - 48)
  else if 'a' ≤ c && c ≤ 'f' then some (c.toNat - 87)
  else if 'A' ≤ c && c ≤ 'F' then some (c.toNat - 55)
  else none

def octVal (c : Char) : Option Nat :=
  if '0' ≤ c && c ≤ '7' then some (c.toNat - 48) else none

def binVal (c : Char) : Option Nat :=
  if c = '0' then some 0 else if c = '1' then some 1 else none

/-- Accumulating step of positional digit parsing. -/
def digitStep (base : Nat) (valOf : Char → Option Nat) (acc : Option Nat) (c : Char) :
    Option Nat :=
  match acc, valOf c with
  | some a, some d => some (a * base + d)
  | _, _ => none

def parseDigitsCore (base : Nat) (valOf : Char → Option Nat) (cs : List Char) : Option Nat :=
  cs.foldl (digitStep base valOf) (some 0)

/-- Parse a non-empty digit string in the given base; `none` on any bad digit. -/
def parseDigits (base : Nat) (valOf : Char → Option Nat) (cs : List Char) : Option Nat :=
  if cs = [] then none else parseDigitsCore base valOf cs

/-- Unsigned part of Python `int(s, 0)`: `0x`/`0X` hex, `0o`/`0O` octal,
`0b`/`0B` binary, otherwise decimal without superfluous leading zeros. -/
def pyUnsignedBase0 (cs : List Char) : Option Nat :=
  match cs with
  | '0' :: 'x' :: rest => parseDigits 16 hexVal rest
  | '0' :: 'X' :: rest => parseDigits 16 hexVal rest
  | '0' :: 'o' :: rest => parseDigits 8 octVal rest
  | '0' :: 'O' :: rest => parseDigits 8 octVal rest
  | '0' :: 'b' :: rest => parseDigits 2 binVal rest
  | '0' :: 'B' :: rest => parseDigits 2 binVal rest
  | _ =>
    if cs.head? = some '0' && !(cs.all (· = '0')) then none
    else parseDigits 10 decVal cs

/-- Unsigned part of Python `int(s)` (base 10; leading zeros allowed). -/
def pyUnsignedBase10 (cs : List Char) : Option Nat := parseDigits 10 decVal cs

/-- Unsigned part of Python `int(s, 16)` (optional `0x`/`0X` prefix allowed). -/
def pyUnsignedBase16 (cs : List Char) : Option Nat :=
  if cs.take 2 = ['0', 'x'] ∨ cs.take 2 = ['0', 'X'] then parseDigits 16 hexVal (cs.drop 2)
  else parseDigits 16 hexVal cs

/-- Optional leading sign.  Python's `int` additionally tolerates surrounding
whitespace; every service call site strips its argument (or passes freshly
rendered hex), so whitespace stripping is left to the callers' strip. -/
def pySigned (core : List Char → Option Nat) (s : String) : Option Int :=
  let cs := s.data
  if cs.head? = some '+' then (core cs.tail).map (fun n => (n : Int))
  else if cs.head? = some '-' then (core cs.tail).map (fun n => -(n : Int))
  else (core cs).map (fun n => (n : Int))

/-- Python `int(s, 0)`. -/
def pyIntBase0 (s : String) : Option Int := pySigned pyUnsignedBase0 s

/-- Python `int(s)`. -/
def pyIntBase10 (s : String) : Option Int := pySigned pyUnsignedBase10 s

/-- Python `int(s, 16)`. -/
def pyIntBase16 (s : String) : Option Int := pySigned pyUnsignedBase16 s

/-! ## Hex rendering

Python `f"{v:X}"`, `f"{v:03X}"` and `hex(v)` as used by the service to render
CAN identifiers and payload bytes. -/

def hexDigitU (n : Nat) : Char := if n < 10 then Char.ofNat (48 + n) else Char.ofNat (55 + n)

def hexDigitL (n : Nat) : Char := if n < 10 then Char.ofNat (48 + n) else Char.ofNat (87 + n)

/-- Big-endian hex digits of `n` (structural fuel; `natHexU` supplies enough). -/
def natHexUAux : Nat → Nat → List Char
  | 0, _ => []
  | f + 1, n => if n < 16 then [hexDigitU n] else natHexUAux f (n / 16) ++ [hexDigitU (n % 16)]

def natHexU (n : Nat) : List Char := natHexUAux (n + 1) n

def natHexLAux : Nat → Nat → List Char
  | 0, _ => []
  | f + 1, n => if n < 16 then [hexDigitL n] else natHexLAux f (n / 16) ++ [hexDigitL (n % 16)]

def natHexL (n : Nat) : List Char := natHexLAux (n + 1) n

/-- Python `f"{i:X}"` (used in the sequencer's log messages). -/
def fmtX (i : Int) : String :=
  if i < 0 then ⟨'-' :: natHexU i.natAbs⟩ else ⟨natHexU i.toNat⟩

/-- Python `f"{n:03X}"`: the reader loop's rendering of a received CAN id. -/
def fmt03X (n : Nat) : String :=
  ⟨List.replicate (3 - (natHexU n).length) '0' ++ natHexU n⟩

/-- Python `hex(i)` (used as `self.write_message(hex(can_id), data)`). -/
def pyHex (i : Int) : String :=
  if i < 0 then ⟨'-' :: '0' :: 'x' :: natHexL i.natAbs⟩
  else ⟨'0' :: 'x' :: natHexL i.toNat⟩

/-- Python `f"{b:02X}"` for a payload byte. -/
def fmt02X (n : Nat) : List Char :=
  List.replicate (2 - (natHexU n).length) '0' ++ natHexU n

/-- Python `' '.join(f"{x:02X}" for x in data)`. -/
def hexSpaced (data : List Nat) : String :=
  ⟨(data.map fmt02X).intersperse [' '] |>.flatten⟩

/-! ## Byte-field parsing

`PCANService._parse_hex_bytes` (pcan_service.py lines 700-715) and
`TimerWriteCSV.ParseInput` (06_TimerWrite_CSV.py lines 98-128). -/

/-- Big-endian `n`-byte encoding, Python `v.to_bytes(n, byteorder='big')`
extended totally (callers establish `v < 256 ^ n`). -/
def toBytesBE (n : Nat) (v : Nat) : List Nat :=
  (List.range n).map (fun i => v / 256 ^ (n - 1 - i) % 256)

/-- `PCANService._parse_hex_bytes`: empty or unparseable input yields zero
bytes; an in-range value is encoded big-endian; an out-of-range value is
masked to the low `expected_bytes` bytes (`val_int &= mask`).  Python's
`&` with a power-of-two mask agrees with `Int.emod` on negatives. -/
def parse_hex_bytes (val_str : String) (expected_bytes : Nat) : List Nat :=
  if val_str = "" then List.replicate expected_bytes 0
  else
    match pyIntBase0 val_str with
    | none => List.replicate expected_bytes 0
    | some v =>
      if 0 ≤ v ∧ v < (256 : Int) ^ expected_bytes then toBytesBE expected_bytes v.toNat
      else toBytesBE expected_bytes (v % (256 : Int) ^ expected_bytes).toNat

/-- `TimerWriteCSV.ParseInput`: as `_parse_hex_bytes`, except that blank input
is also detected after stripping and an unparseable value falls back to `0`
(and is then encoded) instead of returning early. -/
def ParseInput (val_str : String) (expected_bytes : Nat) : List Nat :=
  if val_str = "" ∨ pyStrip val_str = "" then List.replicate expected_bytes 0
  else
    let val_int := (pyIntBase0 val_str).getD 0
    if 0 ≤ val_int ∧ val_int < (256 : Int) ^ expected_bytes then
      toBytesBE expected_bytes val_int.toNat
    else toBytesBE expected_bytes (val_int % (256 : Int) ^ expected_bytes).toNat

/-! ## Command scripts

`PCANService._parse_commands` (pcan_service.py lines 632-698).  The input
string is tokenised by Python's `csv.reader`; the model takes the resulting
list of rows directly (CSV tokenisation is an excluded collaborator per the
specification's scope). -/

structure Command where
  id : Int
  data : List Nat
  interval : Int
  rep : Nat
deriving DecidableEq, Repr

/-- Rows skipped up front: `if not row or all(x.strip() == '' for x in row)`. -/
def blankRow (row : List String) : Bool :=
  row = [] || row.all (fun x => pyStrip x = "")

/-- One iteration of the `_parse_commands` row loop.  Only a header-looking or
unparseable identifier aborts the row (the `int(id_str, 0)` call is the sole
statement whose exception reaches the row-level `except`); command-type,
payload, interval and repeat fields fall back to defaults on their own. -/
def parse_row (default_interval : Int) (row : List String) : Option Command :=
  if blankRow row then none
  else
    let id_str := pyStrip (row.getD 0 "0")
    if pyLower id_str = "id" ∨ pyLower id_str = "can_id" ∨ pyLower id_str = "command" then none
    else
      match pyIntBase0 id_str with
      | none => none
      | some can_id =>
        let cmd_bytes := parse_hex_bytes (pyStrip (row.getD 1 "0")) 2
        let pay_bytes := parse_hex_bytes (pyStrip (row.getD 2 "0")) 6
        let interval :=
          if 3 < row.length ∧ pyStrip (row.getD 3 "") ≠ "" then
            (pyIntBase10 (pyStrip (row.getD 3 ""))).getD default_interval
          else default_interval
        let repeat_val :=
          if 4 < row.length ∧ pyStrip (row.getD 4 "") ≠ "" then
            (pyIntBase10 (pyStrip (row.getD 4 ""))).getD 1
          else 1
        some
          { id := can_id
            data := cmd_bytes ++ pay_bytes
            interval := interval
            rep := if repeat_val ≤ 0 then 1 else repeat_val.toNat }

/-- `PCANService._parse_commands`: each row yields at most one command;
offending rows are skipped and parsing continues. -/
def parse_commands (rows : List (List String)) (default_interval : Int) : List Command :=
  rows.filterMap (parse_row default_interval)

/-! ## Service state

The mutable fields of `PCANService.__init__` (pcan_service.py lines 48-71)
that the verified operations touch.  The log file on disk is part of the
state (`file = none` means the file does not exist); `stream_open` models
`self.stream_file is not None`.  The PCANBasic handle itself is external. -/

structure Msg where
  id : String
  msg_type : String
  len : Nat
  data : List Nat
  timestamp : Nat
deriving DecidableEq, Repr

structure LogEntry where
  type : String
  message : String
deriving DecidableEq, Repr

structure PyResult where
  success : Bool
  text : String
deriving DecidableEq, Repr

structure ServiceState where
  initialized : Bool
  channel : Option String
  baudrate : Option String
  message_counter : Nat
  pcan_available : Bool
  read_buffer : List Msg
  reader_running : Bool
  recording : Bool
  file : Option (List Char)
  stream_open : Bool
  first_message : Bool
  timer_running : Bool
  timer_logs : List LogEntry
  timer_response_buffer : List Msg
deriving DecidableEq, Repr

def channel_map : List String :=
  ["PCAN_USBBUS1", "PCAN_USBBUS2", "PCAN_USBBUS3", "PCAN_USBBUS4", "PCAN_USBBUS5"]

def baudrate_map : List String :=
  ["PCAN_BAUD_1M", "PCAN_BAUD_800K", "PCAN_BAUD_500K", "PCAN_BAUD_250K",
   "PCAN_BAUD_125K", "PCAN_BAUD_100K", "PCAN_BAUD_50K", "PCAN_BAUD_20K", "PCAN_BAUD_10K"]

def PCAN_ERROR_OK : Nat := 0

def PCAN_ERROR_CAUTION : Nat := 0x8000

def PCAN_MESSAGE_STANDARD : Nat := 0x00

def PCAN_MESSAGE_RTR : Nat := 0x01

def PCAN_MESSAGE_EXTENDED : Nat := 0x02

def read_buffer_maxlen : Nat := 2000

def timer_buffer_maxlen : Nat := 1000

/-- Python `collections.deque(maxlen := cap).append`: keep the newest `cap`
elements, silently evicting from the left.  Total — never blocks or raises. -/
def dequeAppend {α : Type} (cap : Nat) (q : List α) (x : α) : List α :=
  let l := q ++ [x]
  l.drop (l.length - cap)

/-! ## Session log writer

The incremental JSON writer: the file-writing part of `initialize`
(pcan_service.py lines 169-213), the per-frame append of `_reader_loop`
(lines 534-550) and the close in `release` (lines 258-268).  File contents
are `List Char`; `datetime.now().isoformat()` values are parameters. -/

/-- Session-object header written on (re)open:
`'  {\n    "initializationTime": "<ts>",\n    "messages": [\n'`. -/
def sessionHeader (ts : List Char) : List Char :=
  "  \x7b\n    \"initializationTime\": \"".data ++ ts ++ "\",\n    \"messages\": [\n".data

/-- File-opening logic of `initialize`: a missing file starts a new array;
an existing file of more than one byte ending in `]` has that bracket
stripped and a separating comma inserted; then the session header follows. -/
def initStream (file : Option (List Char)) (ts : List Char) : List Char :=
  (match file with
   | none => "[\n".data
   | some c =>
     if 1 < c.length ∧ c.getLast? = some ']' then c.dropLast ++ ",\n".data
     else c) ++ sessionHeader ts

/-- Python `json.dumps({"id": id, "data": data, "timestamp": ts})` for the
plain strings the reader produces (no characters needing escapes). -/
def dumpsRecord (id data ts : List Char) : List Char :=
  "\x7b\"id\": \"".data ++ id ++ "\", \"data\": \"".data ++ data ++
    "\", \"timestamp\": \"".data ++ ts ++ "\"\x7d".data

/-- Per-frame append of the reader loop: a separating comma before every
record except the session's first, then the four-space-indented record. -/
def record_frame (content : List Char) (first : Bool) (rec : List Char) :
    List Char × Bool :=
  (content ++ (if first then [] else ",\n".data) ++ "    ".data ++ rec, false)

/-- All frames of one session, folded exactly as the reader loop does. -/
def write_records (content : List Char) (first : Bool) (recs : List (List Char)) :
    List Char × Bool :=
  recs.foldl (fun acc r => record_frame acc.1 acc.2 r) (content, first)

/-- Session-closing text of `release` before the array bracket: messages-array
close, `releaseTime` field, session-object close. -/
def closeBody (ts : List Char) : List Char :=
  "\n    ],\n    \"releaseTime\": \"".data ++ ts ++ "\"\n  \x7d".data

/-- Closing writes of `release`: the session close followed by the array
close bracket (re-stripped by the next `initialize`). -/
def closeStream (content : List Char) (ts : List Char) : List Char :=
  content ++ closeBody ts ++ "\n]".data

/-! ## Bridge service operations -/

/-- The `finally` block of `initialize` (pcan_service.py lines 238-245):
start the reader loop if connected and not already running. -/
def applyFinally (st : ServiceState) : ServiceState :=
  if st.initialized ∧ ¬st.reader_running ∧ st.pcan_available then
    { st with reader_running := true }
  else st

/-- `PCANService.initialize` (pcan_service.py lines 105-245).  `deviceResult`
is the status returned by the external `self.pcan.Initialize` call; the
best-effort `SetValue` option calls touch no modelled state; the device's
`GetErrorText` lookup is abstracted to the numeric status.  Note there is no
check of `self.initialized` anywhere on this path. -/
def initializeService (st : ServiceState) (channel baudrate : String) (deviceResult : Nat)
    (nowTs : List Char) : PyResult × ServiceState :=
  if ¬st.pcan_available then
    (⟨false, "PCAN hardware not available. Ensure PCANBasic driver is installed and PCAN device is connected."⟩,
      applyFinally st)
  else if ¬(channel ∈ channel_map) then
    (⟨false, "Invalid channel: " ++ channel⟩, applyFinally st)
  else if ¬(baudrate ∈ baudrate_map) then
    (⟨false, "Invalid baudrate: " ++ baudrate⟩, applyFinally st)
  else if deviceResult = PCAN_ERROR_OK ∨ deviceResult = PCAN_ERROR_CAUTION then
    let st1 := { st with initialized := true, channel := some channel,
                         baudrate := some baudrate, message_counter := 0 }
    let st2 := { st1 with file := some (initStream st.file nowTs),
                          stream_open := true, recording := true, first_message := true }
    (⟨true, "Channel " ++ channel ++ " initialized successfully at " ++ baudrate⟩,
      applyFinally st2)
  else
    (⟨false, "Failed to initialize PCAN: " ++ toString deviceResult⟩, applyFinally st)

/-- `PCANService.release` (pcan_service.py lines 247-301).  `deviceResult` is
the status of the external `Uninitialize` call. -/
def release (st : ServiceState) (deviceResult : Nat) (nowTs : List Char) :
    PyResult × ServiceState :=
  if st.initialized then
    let st1 := { st with reader_running := false }
    let st2 :=
      if st1.recording ∧ st1.stream_open then
        { st1 with file := some (closeStream (st1.file.getD []) nowTs),
                   stream_open := false, recording := false }
      else st1
    let st3 := { st2 with initialized := false, channel := none, baudrate := none,
                          message_counter := 0, read_buffer := [] }
    if deviceResult = PCAN_ERROR_OK then
      (⟨true, "Channel released successfully"⟩, st3)
    else (⟨false, "Failed to release PCAN: " ++ toString deviceResult⟩, st3)
  else (⟨false, "PCAN not initialized"⟩, st)

/-- `PCANService.read_all_messages` (pcan_service.py lines 408-436): drain
the whole internal buffer in FIFO order; never touches the hardware queue. -/
def read_all_messages (st : ServiceState) : (Bool × List Msg) × ServiceState :=
  if ¬st.initialized then ((false, []), st)
  else ((true, st.read_buffer), { st with read_buffer := [] })

/-- Result value of `PCANService.write_message` (pcan_service.py lines
438-493); shared by the full model and the sequencer loop.  `deviceResult`
is the status of the external `Write` call. -/
def write_message_result (initialized : Bool) (msg_id : String) (deviceResult : Nat) :
    PyResult :=
  if ¬initialized then ⟨false, "PCAN not initialized"⟩
  else
    match pyIntBase16 msg_id with
    | none => ⟨false, "Error writing message: invalid literal"⟩
    | some _ =>
      if deviceResult = PCAN_ERROR_OK then
        ⟨true, "Message sent successfully - ID: " ++ msg_id⟩
      else ⟨false, "Failed to send message: " ++ toString deviceResult⟩

structure TPCANMsgL where
  ID : Int
  MSGTYPE : Nat
  LEN : Nat
  DATA : List Nat
deriving DecidableEq, Repr

/-- The frame `PCANService.write_message` hands to the device: extended type
whenever the `extended` flag is set or the identifier exceeds `0x7FF`. -/
def write_message_frame (msg_id : String) (data : List Nat) (extended rtr : Bool) :
    Option TPCANMsgL :=
  match pyIntBase16 msg_id with
  | none => none
  | some can_id =>
    let is_extended := extended || decide (can_id > 0x7FF)
    let msg_type :=
      (if is_extended then PCAN_MESSAGE_EXTENDED else 0) + (if rtr then PCAN_MESSAGE_RTR else 0)
    let len := min data.length 8
    some { ID := can_id, MSGTYPE := msg_type, LEN := len,
           DATA := if rtr then [] else data.take len }

/-- `PCANService.write_message` as a whole: the result plus the frame written
(`none` when no frame reached the device). -/
def write_message (st : ServiceState) (msg_id : String) (data : List Nat)
    (extended rtr : Bool) (deviceResult : Nat) : PyResult × Option TPCANMsgL :=
  (write_message_result st.initialized msg_id deviceResult,
   if st.initialized then write_message_frame msg_id data extended rtr else none)

/-- `TimerWriteCSV.WriteMessage` frame-type selection (06_TimerWrite_CSV.py
lines 253-263): the initial `EXTENDED` default is immediately overwritten by
the identifier-magnitude check. -/
def WriteMessageMsgType (can_id : Int) : Nat :=
  if can_id > 0x7FF then PCAN_MESSAGE_EXTENDED else PCAN_MESSAGE_STANDARD

/-- One received frame handled by `_reader_loop` (pcan_service.py lines
504-552): push to the read buffer, mirror into the correlation buffer while a
sequence runs, and append to the session log while recording. -/
def reader_process_frame (st : ServiceState) (m : Msg) (recTs : List Char) : ServiceState :=
  { st with
    read_buffer := dequeAppend read_buffer_maxlen st.read_buffer m,
    timer_response_buffer :=
      if st.timer_running then dequeAppend timer_buffer_maxlen st.timer_response_buffer m
      else st.timer_response_buffer,
    file :=
      if st.recording ∧ st.stream_open then
        some (record_frame (st.file.getD []) st.first_message
          (dumpsRecord m.id.data (hexSpaced m.data).data recTs)).1
      else st.file,
    first_message :=
      if st.recording ∧ st.stream_open then
        (record_frame (st.file.getD []) st.first_message
          (dumpsRecord m.id.data (hexSpaced m.data).data recTs)).2
      else st.first_message }

/-- `PCANService.start_timer_sequence` (pcan_service.py lines 582-613).  The
`mode` argument is accepted and ignored exactly as in the source; thread
creation is modelled by the `timer_running` flag (the thread body is
`timer_write_loop` below). -/
def start_timer_sequence (st : ServiceState) (mode : String) (rows : List (List String))
    (default_interval : Int) (base_id : Int) : PyResult × ServiceState :=
  if st.timer_running then (⟨false, "Timer sequence already running"⟩, st)
  else
    let commands := parse_commands rows default_interval
    if commands = [] then (⟨false, "No valid commands found in input"⟩, st)
    else
      (⟨true, "Started sequence with " ++ toString commands.length ++ " commands"⟩,
       { st with timer_running := true, timer_logs := [], timer_response_buffer := [] })

/-- `PCANService.stop_timer_sequence` (pcan_service.py lines 615-624). -/
def stop_timer_sequence (st : ServiceState) : PyResult × ServiceState :=
  if ¬st.timer_running then (⟨false, "Timer sequence not running"⟩, st)
  else (⟨true, "Timer sequence stopped"⟩, { st with timer_running := false })

/-! ## Sequencer execution

`PCANService._timer_write_loop` (pcan_service.py lines 717-880), modelled as
the run-to-completion behaviour (the cooperative `stop_timer_event` is never
set; cancellation is a real-time concern outside the embedding).  The frames
drained from the correlation buffer during the wait window after the `i`-th
transmission are supplied as `windows i` (the 10 ms polling cadence only
affects when frames are drained, not what is done with them); frames drained
during the post-sequence listening window are `postWindow`.  Wall-clock
values (entry timestamps, the duration figure, per-response capture times)
are abstracted. -/

structure Received where
  sent_id : String
  response_id : String
  data : String
deriving DecidableEq, Repr

/-- Accepted response identifiers: `[base_id + 129, base_id + 130]`. -/
def allowed_response_ids (base_id : Int) : List Int := [base_id + 129, base_id + 130]

/-- Buffer drain shared by the per-command wait windows and the post-sequence
window: parse the frame id as hex, record it only when it is an allowed
response id; unparseable ids are silently skipped. -/
def correlate (allowed : List Int) (sent_id_str : String) (window : List Msg) :
    List Received :=
  window.filterMap fun m =>
    match pyIntBase16 m.id with
    | none => none
    | some mid =>
      if mid ∈ allowed then
        some ⟨sent_id_str, "0x" ++ fmtX mid, hexSpaced m.data⟩
      else none

/-- One transmission: the `sent`/`error` log entry and the responses
correlated during its wait window. -/
def run_one_send (initialized : Bool) (c : Command) (deviceResult : Nat)
    (window : List Msg) (allowed : List Int) : LogEntry × List Received :=
  let res := write_message_result initialized (pyHex c.id) deviceResult
  let entry : LogEntry :=
    if res.success then
      ⟨"sent", "Sent: ID=0x" ++ fmtX c.id ++ " Data=" ++ hexSpaced c.data⟩
    else ⟨"error", "Failed Sent: " ++ res.text⟩
  (entry, correlate allowed ("0x" ++ fmtX c.id) window)

/-- The flattened send list: each command occurs `rep` times in list order. -/
def expandSends (commands : List Command) : List Command :=
  commands.flatMap fun c => List.replicate c.rep c

/-- Total expected responses: `sum(cmd['repeat'] for cmd in commands)`. -/
def total_expected (commands : List Command) : Nat :=
  (commands.map Command.rep).sum

/-- Summary block appended after the post-sequence window. -/
def summary_logs (durationStr : String) (expected : Nat) (received : List Received) :
    List LogEntry :=
  if received ≠ [] then
    ⟨"info", "--- Listened Data (Refreshed) ---"⟩ ::
    ⟨"info", "Listening Duration: " ++ durationStr ++ "s | Expected: " ++ toString expected ++
      " | Recv: " ++ toString received.length⟩ ::
    received.map (fun r => ⟨"recv", "Recv: " ++ r.response_id ++ " | Data: " ++ r.data ++ " | Time: -"⟩)
  else
    [⟨"info", "No matching responses received."⟩,
     ⟨"info", "Listening Duration: " ++ durationStr ++ "s | Expected: " ++ toString expected ++
       " | Recv: 0"⟩]

/-- `PCANService._timer_write_loop` run to completion.  `deviceResults i` is
the status of the `i`-th `Write` call.  The post-sequence window reuses the
`can_id` left over from the command loop (`"Unknown"` when no command ran);
`recv_stats` is incremented in the source but never read, and is omitted. -/
def timer_write_loop (initialized : Bool) (commands : List Command) (base_id : Int)
    (deviceResults : Nat → Nat) (windows : Nat → List Msg) (postWindow : List Msg)
    (durationStr : String) : List LogEntry × List Received :=
  let allowed := allowed_response_ids base_id
  let sends := expandSends commands
  let results := (List.range sends.length).map fun i =>
    run_one_send initialized (sends.getD i ⟨0, [], 0, 1⟩) (deviceResults i) (windows i) allowed
  let sendLogs := results.map Prod.fst
  let mainRecv := (results.map Prod.snd).flatten
  let postSent :=
    match commands.getLast? with
    | some c => "0x" ++ fmtX c.id
    | none => "Unknown"
  let postRecv := correlate allowed postSent postWindow
  let received := mainRecv ++ postRecv
  (⟨"info", "Starting Sequence..."⟩ ::
     sendLogs ++ ⟨"info", "Sequence Finished"⟩ ::
     summary_logs durationStr (total_expected commands) received,
   received)

/-! ## Recording sessions

One `initialize` / record / `release` cycle acting on the log file, composed
from the writer pieces above, and the JSON grammar the resulting file is
checked against. -/

structure FrameRecord where
  id : List Char
  data : List Char
  ts : List Char
deriving DecidableEq, Repr

structure Session where
  initTs : List Char
  recs : List FrameRecord
  relTs : List Char
deriving DecidableEq, Repr

def FrameRecord.dumps (r : FrameRecord) : List Char := dumpsRecord r.id r.data r.ts

/-- File contents produced by one cleanly closed session on top of `file`. -/
def session_cycle (file : Option (List Char)) (s : Session) : List Char :=
  closeStream (write_records (initStream file s.initTs) true (s.recs.map FrameRecord.dumps)).1 s.relTs

/-- File contents after a list of cleanly closed sessions. -/
def run_sessions : Option (List Char) → List Session → Option (List Char)
  | file, [] => file
  | file, s :: rest => run_sessions (some (session_cycle file s)) rest

/-! ## JSON grammar

A JSON value and the textual grammar of json.org, restricted to the
constructs the log file uses (strings are escape-free).  `JsonValueText v cs`
states that the character sequence `cs` is a well-formed JSON value text
denoting `v`; since the grammar is a sub-grammar of JSON, membership proves
the text parses as JSON. -/

inductive Json where
  | null : Json
  | bool : Bool → Json
  | num : Int → Json
  | str : String → Json
  | arr : List Json → Json
  | obj : List (String × Json) → Json
deriving Repr

/-- JSON insignificant whitespace. -/
def jsonWs (c : Char) : Bool := c = ' ' || c = '\n' || c = '\r' || c = '\t'

/-- Characters allowed unescaped inside a JSON string literal. -/
def jsonPlainChar (c : Char) : Bool := c ≠ '"' && c ≠ '\\' && 0x20 ≤ c.toNat

/-- Decimal digits of a natural number. -/
def natDecChars (n : Nat) : List Char := (Nat.toDigits 10 n)

mutual

inductive JsonValueText : Json → List Char → Prop where
  | null : JsonValueText Json.null ['n', 'u', 'l', 'l']
  | boolTrue : JsonValueText (Json.bool true) ['t', 'r', 'u', 'e']
  | boolFalse : JsonValueText (Json.bool false) ['f', 'a', 'l', 's', 'e']
  | numNonneg (n : Nat) : JsonValueText (Json.num n) (natDecChars n)
  | numNeg (n : Nat) (h : 0 < n) : JsonValueText (Json.num (-(n : Int))) ('-' :: natDecChars n)
  | str (s : List Char) (h : s.all jsonPlainChar = true) :
      JsonValueText (Json.str ⟨s⟩) ('"' :: (s ++ ['"']))
  | arrEmpty (w : List Char) (h : w.all jsonWs = true) :
      JsonValueText (Json.arr []) ('[' :: (w ++ [']']))
  | arr (vs : List Json) (cs : List Char) (h : JsonElementsText vs cs) :
      JsonValueText (Json.arr vs) ('[' :: (cs ++ [']']))
  | objEmpty (w : List Char) (h : w.all jsonWs = true) :
      JsonValueText (Json.obj []) ('\x7b' :: (w ++ ['\x7d']))
  | obj (ms : List (String × Json)) (cs : List Char) (h : JsonMembersText ms cs) :
      JsonValueText (Json.obj ms) ('\x7b' :: (cs ++ ['\x7d']))

inductive JsonElementText : Json → List Char → Prop where
  | mk (w1 w2 cs : List Char) (v : Json) (h1 : w1.all jsonWs = true)
      (h2 : w2.all jsonWs = true) (h : JsonValueText v cs) :
      JsonElementText v (w1 ++ cs ++ w2)

inductive JsonElementsText : List Json → List Char → Prop where
  | single (v : Json) (cs : List Char) (h : JsonElementText v cs) :
      JsonElementsText [v] cs
  | cons (v : Json) (cs : List Char) (vs : List Json) (rest : List Char)
      (h : JsonElementText v cs) (hr : JsonElementsText vs rest) :
      JsonElementsText (v :: vs) (cs ++ ',' :: rest)

inductive JsonMemberText : String × Json → List Char → Prop where
  | mk (w1 w2 name cs : List Char) (v : Json) (h1 : w1.all jsonWs = true)
      (h2 : w2.all jsonWs = true) (hn : name.all jsonPlainChar = true)
      (h : JsonElementText v cs) :
      JsonMemberText (⟨name⟩, v) (w1 ++ '"' :: name ++ '"' :: (w2 ++ ':' :: cs))

inductive JsonMembersText : List (String × Json) → List Char → Prop where
  | single (m : String × Json) (cs : List Char) (h : JsonMemberText m cs) :
      JsonMembersText [m] cs
  | cons (m : String × Json) (cs : List Char) (ms : List (String × Json))
      (rest : List Char) (h : JsonMemberText m cs) (hr : JsonMembersText ms rest) :
      JsonMembersText (m :: ms) (cs ++ ',' :: rest)

end

/-- JSON value denoted by one frame record as the writer lays it out. -/
def FrameRecord.json (r : FrameRecord) : Json :=
  Json.obj [("id", Json.str ⟨r.id⟩), ("data", Json.str ⟨r.data⟩), ("timestamp", Json.str ⟨r.ts⟩)]

/-- JSON value denoted by one cleanly closed session object. -/
def Session.json (s : Session) : Json :=
  Json.obj [("initializationTime", Json.str ⟨s.initTs⟩),
            ("messages", Json.arr (s.recs.map FrameRecord.json)),
            ("releaseTime", Json.str ⟨s.relTs⟩)]

/-- All text fields of a session are escape-free printable strings (true of
the ISO timestamps, 3-hex-digit ids and spaced-hex payload dumps the service
writes). -/
def Session.Good (s : Session) : Prop :=
  s.initTs.all jsonPlainChar = true ∧ s.relTs.all jsonPlainChar = true ∧
    ∀ r ∈ s.recs, r.id.all jsonPlainChar = true ∧ r.data.all jsonPlainChar = true ∧
      r.ts.all jsonPlainChar = true

instance (s : Session) : Decidable s.Good := by
  unfold Session.Good
  exact inferInstance

/-! ## Characterisation helpers used by the theorems -/

/-- A drained frame whose identifier parses to one of the two accepted
response identifiers for `base_id`. -/
def acceptMsg (base_id : Int) (m : Msg) : Bool :=
  pyIntBase16 m.id = some (base_id + 129) || pyIntBase16 m.id = some (base_id + 130)

/-- The frame the reader loop queues for a received CAN identifier. -/
def readerMsg (ID : Nat) (msg_type : String) (data : List Nat) (timestamp : Nat) : Msg :=
  { id := fmt03X ID, msg_type := msg_type, len := data.length, data := data, timestamp := timestamp }

/-- Closed form of the records block written inside one session's
`messages` array. -/
def recordsChars : List (List Char) → List Char
  | [] => []
  | r :: rest => "    ".data ++ r ++ rest.flatMap (fun x => ",\n    ".data ++ x)

/-- Closed form of the text one cleanly closed session contributes to the
log file (between the array punctuation). -/
def sessionChars (s : Session) : List Char :=
  sessionHeader s.initTs ++ recordsChars (s.recs.map FrameRecord.dumps) ++ closeBody s.relTs

/-- A connected steady-state service (reader loop running, recording).  Used
as concrete input by witnesses and counterexamples. -/
def stConnected : ServiceState :=
  { initialized := true, channel := some "PCAN_USBBUS1", baudrate := some "PCAN_BAUD_500K",
    message_counter := 0, pcan_available := true, read_buffer := [], reader_running := true,
    recording := true, file := some "[\n".data, stream_open := true, first_message := true,
    timer_running := false, timer_logs := [], timer_response_buffer := [] }

/-- A fresh, unconnected service as built by `PCANService.__init__` (with the
PCANBasic library present). -/
def stFresh : ServiceState :=
  { initialized := false, channel := none, baudrate := none,
    message_counter := 0, pcan_available := true, read_buffer := [], reader_running := false,
    recording := false, file := none, stream_open := false, first_message := true,
    timer_running := false, timer_logs := [], timer_response_buffer := [] }

/-! ## Buffer claims -/

theorem dequeAppend_length {α : Type} (cap : Nat) (q : List α) (x : α) :
    (dequeAppend cap q x).length = min (q.length + 1) cap := by
  simp [dequeAppend]
  omega

/-- C5: a push onto a bounded buffer (the service's frame buffer has capacity
2000, its correlation buffer 1000) never exceeds the capacity; at capacity it
evicts exactly the oldest element, preserving FIFO order of the remainder;
under capacity it is a plain FIFO append.  The model is total, so the push
neither blocks nor raises. -/
theorem C5_dequeAppend_bounded_fifo {α : Type} (cap : Nat) (q : List α) (x : α) :
    (dequeAppend cap q x).length ≤ cap ∧
    (q.length = cap → 0 < cap → dequeAppend cap q x = q.tail ++ [x]) ∧
    (q.length < cap → dequeAppend cap q x = q ++ [x]) ∧
    (∀ st m ts, (reader_process_frame st m ts).read_buffer =
        dequeAppend read_buffer_maxlen st.read_buffer m) ∧
    read_buffer_maxlen = 2000 ∧ timer_buffer_maxlen = 1000 := by
  refine ⟨?_, ?_, ?_, ?_, rfl, rfl⟩
  · rw [dequeAppend_length]; omega
  · intro hq hcap
    have hne : q ≠ [] := by
      intro h
      rw [h] at hq
      simp at hq
      omega
    have h1 : q.length + 1 - cap = 1 := by omega
    simp only [dequeAppend, List.length_append, List.length_singleton, h1]
    rw [List.drop_append_of_le_length (by omega), List.drop_one]
  · intro hq
    have h0 : q.length + 1 - cap = 0 := by omega
    simp only [dequeAppend, List.length_append, List.length_singleton, h0, List.drop_zero]
  · intro st m ts
    simp only [reader_process_frame]

/-- Witness for C5 at a concrete buffer at capacity 2: the oldest element is
evicted and order is preserved. -/
theorem C5_witness :
    dequeAppend 2 ["a", "b"] "c" = ["b", "c"] ∧ (dequeAppend 2 ["a", "b"] "c").length ≤ 2 :=
  ⟨(C5_dequeAppend_bounded_fifo 2 ["a", "b"] "c").2.1 rfl (by decide),
   (C5_dequeAppend_bounded_fifo 2 ["a", "b"] "c").1⟩

/-- C6: on a connected service, `read_all_messages` returns the whole buffer
in arrival order, leaves the buffer empty, and an immediately following call
returns an empty list. -/
theorem C6_read_all_drains (st : ServiceState) (h : st.initialized = true) :
    (read_all_messages st).1.1 = true ∧
    (read_all_messages st).1.2 = st.read_buffer ∧
    (read_all_messages st).2.read_buffer = [] ∧
    (read_all_messages (read_all_messages st).2).1.1 = true ∧
    (read_all_messages (read_all_messages st).2).1.2 = [] := by
  simp [read_all_messages, h]

/-- Witness for C6 on a concrete two-frame buffer. -/
theorem C6_witness :
    (read_all_messages { stConnected with
        read_buffer := [⟨"100", "DATA", 1, [1], 0⟩, ⟨"200", "DATA", 1, [2], 1⟩] }).1.2 =
      [⟨"100", "DATA", 1, [1], 0⟩, ⟨"200", "DATA", 1, [2], 1⟩] ∧
    (read_all_messages (read_all_messages { stConnected with
        read_buffer := [⟨"100", "DATA", 1, [1], 0⟩, ⟨"200", "DATA", 1, [2], 1⟩] }).2).1.2 = [] := by
  refine ⟨?_, ?_⟩
  · exact (C6_read_all_drains _ rfl).2.1
  · exact (C6_read_all_drains { stConnected with
      read_buffer := [⟨"100", "DATA", 1, [1], 0⟩, ⟨"200", "DATA", 1, [2], 1⟩] } rfl).2.2.2.2

/-- C7: a second `start_timer_sequence` while a sequence is running fails and
leaves the whole service state — in particular the running sequence's log
ring, correlation buffer and run flag — unchanged. -/
theorem C7_double_start_rejected (st : ServiceState) (mode : String)
    (rows : List (List String)) (d b : Int) (h : st.timer_running = true) :
    (start_timer_sequence st mode rows d b).1.success = false ∧
    (start_timer_sequence st mode rows d b).1.text = "Timer sequence already running" ∧
    (start_timer_sequence st mode rows d b).2 = st := by
  simp [start_timer_sequence, h]

/-- Witness for C7 on a concrete running-sequence state. -/
theorem C7_witness :
    (start_timer_sequence { stConnected with timer_running := true } "manual"
        [["0x123", "1", "1", "", ""]] 2000 1280).1.success = false ∧
    (start_timer_sequence { stConnected with timer_running := true } "manual"
        [["0x123", "1", "1", "", ""]] 2000 1280).2 =
      { stConnected with timer_running := true } := by
  refine ⟨?_, ?_⟩
  · exact (C7_double_start_rejected _ _ _ _ _ rfl).1
  · exact (C7_double_start_rejected { stConnected with timer_running := true } "manual"
      [["0x123", "1", "1", "", ""]] 2000 1280 rfl).2.2

/-! ## Byte-width claims -/

theorem toBytesBE_length (n v : Nat) : (toBytesBE n v).length = n := by
  simp [toBytesBE]

theorem pyIntBase0_empty : pyIntBase0 "" = none := rfl

theorem parse_hex_bytes_length (s : String) (n : Nat) : (parse_hex_bytes s n).length = n := by
  unfold parse_hex_bytes
  split
  · simp
  · split
    · simp
    · split <;> exact toBytesBE_length _ _

theorem ParseInput_length (s : String) (n : Nat) : (ParseInput s n).length = n := by
  unfold ParseInput
  split
  · simp
  · dsimp only
    split <;> exact toBytesBE_length _ _

/-- A value that fits in `m` bytes is encoded into `n ≥ m` bytes by
left-padding the `m`-byte encoding with zero bytes. -/
theorem toBytesBE_padded (n m w : Nat) (hmn : m ≤ n) (hw : w < 256 ^ m) :
    toBytesBE n w = List.replicate (n - m) 0 ++ toBytesBE m w := by
  unfold toBytesBE
  conv_lhs => rw [show n = (n - m) + m by omega]
  rw [List.range_add, List.map_append]
  congr 1
  · have hmem : ∀ b ∈ (List.range (n - m)).map
        (fun i => w / 256 ^ ((n - m) + m - 1 - i) % 256), b = 0 := by
      intro b hb
      simp only [List.mem_map, List.mem_range] at hb
      obtain ⟨i, hi, rfl⟩ := hb
      have hexp : m ≤ (n - m) + m - 1 - i := by omega
      have hlt : w < 256 ^ ((n - m) + m - 1 - i) :=
        lt_of_lt_of_le hw (Nat.pow_le_pow_right (by omega) hexp)
      simp [Nat.div_eq_of_lt hlt]
    have h := List.eq_replicate_of_mem hmem
    simpa using h
  · rw [List.map_map]
    apply List.map_congr_left
    intro j hj
    have hj' : j < m := List.mem_range.mp hj
    have he : (n - m) + m - 1 - ((n - m) + j) = m - 1 - j := by omega
    simp only [Function.comp_apply, he]

theorem pyIntBase0_some_ne_empty {s : String} {v : Int} (h : pyIntBase0 s = some v) :
    ¬s = "" := by
  intro he
  rw [he, pyIntBase0_empty] at h
  exact Option.noConfusion h

/-- C8: a parsed byte field always has exactly the expected width, in both
`_parse_hex_bytes` (service) and `ParseInput` (CSV script); a value that
denotes fewer than `n` bytes is left-zero-padded (big-endian) to `n` bytes;
a value too large for `n` bytes is masked to the low `n` bytes instead of
raising. -/
theorem C8_byte_width (s : String) (n : Nat) (v : Int) :
    (parse_hex_bytes s n).length = n ∧
    (ParseInput s n).length = n ∧
    (pyIntBase0 s = some v → 0 ≤ v → v < (256 : Int) ^ n →
      parse_hex_bytes s n = toBytesBE n v.toNat) ∧
    (∀ m ≤ n, ∀ w : Nat, w < 256 ^ m → toBytesBE n w = List.replicate (n - m) 0 ++ toBytesBE m w) ∧
    (pyIntBase0 s = some v → (256 : Int) ^ n ≤ v →
      parse_hex_bytes s n = toBytesBE n ((v % (256 : Int) ^ n).toNat)) := by
  refine ⟨parse_hex_bytes_length s n, ParseInput_length s n, ?_, ?_, ?_⟩
  · intro hv h0 hlt
    unfold parse_hex_bytes
    rw [hv]
    rw [if_neg (pyIntBase0_some_ne_empty hv)]
    dsimp only
    rw [if_pos ⟨h0, hlt⟩]
  · intro m hm w hw
    exact toBytesBE_padded n m w hm hw
  · intro hv hge
    unfold parse_hex_bytes
    rw [hv]
    rw [if_neg (pyIntBase0_some_ne_empty hv)]
    dsimp only
    rw [if_neg (by push_neg; intro _; omega)]

/-- Witness for C8: `"0x0102"` into the 6-byte payload field is left-padded
to `[0,0,0,0,1,2]`, and an 8-hex-digit value into the 2-byte field is
masked. -/
theorem C8_witness :
    (parse_hex_bytes "0x0102" 6).length = 6 ∧
    parse_hex_bytes "0x0102" 6 = toBytesBE 6 ((258 : Int).toNat) ∧
    toBytesBE 6 258 = List.replicate 4 0 ++ toBytesBE 2 258 ∧
    parse_hex_bytes "0x112233" 2 = toBytesBE 2 (((0x112233 : Int) % (256 : Int) ^ 2).toNat) := by
  refine ⟨(C8_byte_width "0x0102" 6 258).1, ?_, ?_, ?_⟩
  · exact (C8_byte_width "0x0102" 6 258).2.2.1 (by decide) (by decide) (by decide)
  · exact (C8_byte_width "0x0102" 6 258).2.2.2.1 2 (by decide) 258 (by decide)
  · exact (C8_byte_width "0x112233" 2 0x112233).2.2.2.2 (by decide) (by decide)

/-! ## Frame-type claims -/

theorem write_message_frame_eq (msg_id : String) (data : List Nat) (id : Int)
    (hid : pyIntBase16 msg_id = some id) :
    write_message_frame msg_id data false false =
      some { ID := id,
             MSGTYPE := if 0x7FF < id then PCAN_MESSAGE_EXTENDED else PCAN_MESSAGE_STANDARD,
             LEN := min data.length 8, DATA := data.take (min data.length 8) } := by
  simp only [write_message_frame, hid]
  by_cases hmag : (0x7FF : Int) < id <;>
    simp [hmag, PCAN_MESSAGE_EXTENDED, PCAN_MESSAGE_STANDARD, PCAN_MESSAGE_RTR]

/-- C9: on a connected service, a write (with the flags every caller in the
repository uses, namely their defaults) selects the frame type purely by
identifier magnitude — standard for identifiers up to `0x7FF`, extended
above — and the standalone CSV script's `WriteMessage` makes the same
selection. -/
theorem C9_frame_type_by_magnitude (st : ServiceState) (msg_id : String) (data : List Nat)
    (dev : Nat) (id : Int) (hinit : st.initialized = true)
    (hid : pyIntBase16 msg_id = some id) :
    (∃ frame, (write_message st msg_id data false false dev).2 = some frame ∧
      frame.ID = id ∧
      (id ≤ 0x7FF → frame.MSGTYPE = PCAN_MESSAGE_STANDARD) ∧
      (0x7FF < id → frame.MSGTYPE = PCAN_MESSAGE_EXTENDED)) ∧
    (id ≤ 0x7FF → WriteMessageMsgType id = PCAN_MESSAGE_STANDARD) ∧
    (0x7FF < id → WriteMessageMsgType id = PCAN_MESSAGE_EXTENDED) := by
  have hframe : (write_message st msg_id data false false dev).2 =
      write_message_frame msg_id data false false := by
    simp [write_message, hinit]
  rw [write_message_frame_eq msg_id data id hid] at hframe
  refine ⟨⟨_, hframe, rfl, ?_, ?_⟩, ?_, ?_⟩
  · intro hle
    simp [if_neg (not_lt.mpr hle)]
  · intro hlt
    simp [if_pos hlt]
  · intro hle
    simp [WriteMessageMsgType, if_neg (not_lt.mpr hle)]
  · intro hlt
    simp [WriteMessageMsgType, if_pos hlt]

/-- Witness for C9 at the claim's boundary identifiers `0x7FF` and `0x800`. -/
theorem C9_witness :
    (∃ frame, (write_message stConnected "0x7FF" [1] false false 0).2 = some frame ∧
      frame.MSGTYPE = PCAN_MESSAGE_STANDARD) ∧
    (∃ frame, (write_message stConnected "0x800" [1] false false 0).2 = some frame ∧
      frame.MSGTYPE = PCAN_MESSAGE_EXTENDED) := by
  constructor
  · obtain ⟨frame, heq, _, hstd, _⟩ :=
      (C9_frame_type_by_magnitude stConnected "0x7FF" [1] 0 0x7FF rfl (by decide)).1
    exact ⟨frame, heq, hstd (by decide)⟩
  · obtain ⟨frame, heq, _, _, hext⟩ :=
      (C9_frame_type_by_magnitude stConnected "0x800" [1] 0 0x800 rfl (by decide)).1
    exact ⟨frame, heq, hext (by decide)⟩

/-! ## Double-initialize claims -/

/-- C1 counterexample: `initialize` performs no already-initialized check.
On a connected service (channel `PCAN_USBBUS1`, reader running), a second
`initialize` for channel `PCAN_USBBUS2` that the device accepts (status OK)
returns success and overwrites the connection state, rather than being
rejected without mutation. -/
theorem C1_counterexample :
    stConnected.initialized = true ∧
    stConnected.channel = some "PCAN_USBBUS1" ∧
    (initializeService stConnected "PCAN_USBBUS2" "PCAN_BAUD_500K" PCAN_ERROR_OK
        "2024-01-01T00:00:00".data).1.success = true ∧
    (initializeService stConnected "PCAN_USBBUS2" "PCAN_BAUD_500K" PCAN_ERROR_OK
        "2024-01-01T00:00:00".data).2.channel = some "PCAN_USBBUS2" ∧
    (initializeService stConnected "PCAN_USBBUS2" "PCAN_BAUD_500K" PCAN_ERROR_OK
        "2024-01-01T00:00:00".data).2 ≠ stConnected := by
  refine ⟨rfl, rfl, rfl, rfl, ?_⟩
  intro h
  have h2 : (initializeService stConnected "PCAN_USBBUS2" "PCAN_BAUD_500K" PCAN_ERROR_OK
      "2024-01-01T00:00:00".data).2.channel = some "PCAN_USBBUS2" := rfl
  rw [h] at h2
  exact absurd h2 (by decide)

/-- C1 amended: the service has no already-initialized guard of its own;
on an established connection (reader loop running) a second `initialize` is
rejected synchronously and mutates no state exactly when argument validation
fails or the device itself rejects (status neither OK nor CAUTION); a second
`initialize` the device accepts succeeds and overwrites connection state
(see the counterexample). -/
theorem C1_initialize_reject_no_mutation (st : ServiceState) (ch br : String)
    (r : Nat) (ts : List Char) (hrun : st.reader_running = true) :
    ((r ≠ PCAN_ERROR_OK ∧ r ≠ PCAN_ERROR_CAUTION) →
      (initializeService st ch br r ts).1.success = false ∧
      (initializeService st ch br r ts).2 = st) ∧
    (¬ch ∈ channel_map →
      (initializeService st ch br r ts).1.success = false ∧
      (initializeService st ch br r ts).2 = st) ∧
    (¬br ∈ baudrate_map →
      (initializeService st ch br r ts).1.success = false ∧
      (initializeService st ch br r ts).2 = st) ∧
    (¬st.pcan_available →
      (initializeService st ch br r ts).1.success = false ∧
      (initializeService st ch br r ts).2 = st) := by
  have hfin : applyFinally st = st := by
    simp [applyFinally, hrun]
  refine ⟨?_, ?_, ?_, ?_⟩
  · intro hr
    unfold initializeService
    by_cases h1 : st.pcan_available
    · by_cases h2 : ch ∈ channel_map
      · by_cases h3 : br ∈ baudrate_map
        · simp [h1, h2, h3, hfin, hr.1, hr.2]
        · simp [h1, h2, h3, hfin]
      · simp [h1, h2, hfin]
    · simp [h1, hfin]
  · intro h2
    unfold initializeService
    by_cases h1 : st.pcan_available
    · simp [h1, h2, hfin]
    · simp [h1, hfin]
  · intro h3
    unfold initializeService
    by_cases h1 : st.pcan_available
    · by_cases h2 : ch ∈ channel_map
      · simp [h1, h2, h3, hfin]
      · simp [h1, h2, hfin]
    · simp [h1, hfin]
  · intro h1
    unfold initializeService
    simp [h1, hfin]

/-- Witness for the amended C1: a repeated `initialize` of the already-open
channel, rejected by the device with the PCAN already-initialized status
`0x4000000`, fails and leaves the connected state untouched. -/
theorem C1_witness :
    (initializeService stConnected "PCAN_USBBUS1" "PCAN_BAUD_500K" 0x4000000
        "2024-01-01T00:00:00".data).1.success = false ∧
    (initializeService stConnected "PCAN_USBBUS1" "PCAN_BAUD_500K" 0x4000000
        "2024-01-01T00:00:00".data).2 = stConnected :=
  (C1_initialize_reject_no_mutation stConnected "PCAN_USBBUS1" "PCAN_BAUD_500K"
    0x4000000 "2024-01-01T00:00:00".data rfl).1 ⟨by decide, by decide⟩

/-! ## Command-parsing claims -/

/-- C2 counterexample: a row whose identifier parses but whose command-type
field `"zzz"` is non-numeric is NOT skipped — it is kept with the bad field
replaced by zero bytes — so "any row containing ... a non-numeric field is
skipped" fails on the code. -/
theorem C2_counterexample :
    parse_commands [["0x123", "zzz", "1", "", ""]] 2000 =
      [{ id := 291, data := [0, 0, 0, 0, 0, 0, 0, 1], interval := 2000, rep := 1 }] ∧
    parse_commands [["0x123", "zzz", "1", "", ""]] 2000 ≠ [] := by
  constructor
  · decide
  · decide

/-- C2 amended: a row is skipped — with parsing continuing for the remaining
rows — exactly when its identifier is malformed (or header-like, or the row
is blank); a non-numeric non-identifier field is replaced by its default
(zero bytes, the default interval, repeat 1) instead of causing a skip; and
a script yielding zero valid commands makes `start_timer_sequence` fail
without touching the service state. -/
theorem C2_parse_errors (rows : List (List String)) (row : List String) (d : Int)
    (st : ServiceState) (mode : String) (b : Int) :
    (parse_commands (row :: rows) d = (parse_row d row).toList ++ parse_commands rows d) ∧
    (pyIntBase0 (pyStrip (row.getD 0 "0")) = none → parse_row d row = none) ∧
    (blankRow row = false →
      ¬(pyLower (pyStrip (row.getD 0 "0")) = "id" ∨ pyLower (pyStrip (row.getD 0 "0")) = "can_id" ∨
        pyLower (pyStrip (row.getD 0 "0")) = "command") →
      ∀ v, pyIntBase0 (pyStrip (row.getD 0 "0")) = some v →
        parse_row d row = some
          { id := v,
            data := parse_hex_bytes (pyStrip (row.getD 1 "0")) 2 ++
              parse_hex_bytes (pyStrip (row.getD 2 "0")) 6,
            interval :=
              if 3 < row.length ∧ pyStrip (row.getD 3 "") ≠ "" then
                (pyIntBase10 (pyStrip (row.getD 3 ""))).getD d
              else d,
            rep :=
              if (if 4 < row.length ∧ pyStrip (row.getD 4 "") ≠ "" then
                    (pyIntBase10 (pyStrip (row.getD 4 ""))).getD 1
                  else 1) ≤ 0 then 1
              else (if 4 < row.length ∧ pyStrip (row.getD 4 "") ≠ "" then
                  (pyIntBase10 (pyStrip (row.getD 4 ""))).getD 1
                else 1).toNat }) ∧
    (st.timer_running = false → parse_commands rows d = [] →
      (start_timer_sequence st mode rows d b).1.success = false ∧
      (start_timer_sequence st mode rows d b).2 = st) := by
  refine ⟨?_, ?_, ?_, ?_⟩
  · cases h : parse_row d row <;> simp [parse_commands, List.filterMap_cons, h]
  · intro h
    unfold parse_row
    by_cases hb : blankRow row = true
    · rw [if_pos hb]
    · rw [if_neg hb]
      dsimp only
      by_cases hh : pyLower (pyStrip (row.getD 0 "0")) = "id" ∨
          pyLower (pyStrip (row.getD 0 "0")) = "can_id" ∨
          pyLower (pyStrip (row.getD 0 "0")) = "command"
      · rw [if_pos hh]
      · rw [if_neg hh, h]
  · intro hb hhdr v hv
    unfold parse_row
    rw [if_neg (by simp [hb])]
    dsimp only
    rw [if_neg hhdr, hv]
  · intro htr hpc
    unfold start_timer_sequence
    simp [htr, hpc]

/-- Witness for the amended C2: the malformed identifier `"junk"` skips its
row, and a one-row script consisting only of that row yields zero commands
and a failing, mutation-free `start_timer_sequence`. -/
theorem C2_witness :
    parse_row 2000 ["junk", "1", "1", "1", "1"] = none ∧
    (start_timer_sequence stFresh "manual" [["junk", "1", "1", "1", "1"]] 2000 1280).1.success
      = false ∧
    (start_timer_sequence stFresh "manual" [["junk", "1", "1", "1", "1"]] 2000 1280).2
      = stFresh := by
  refine ⟨?_, ?_, ?_⟩
  · exact (C2_parse_errors [] ["junk", "1", "1", "1", "1"] 2000 stFresh "manual" 1280).2.1
      (by decide)
  · exact ((C2_parse_errors [] [] 2000 stFresh "manual" 1280).2.2.2 rfl (by decide)).1
  · exact ((C2_parse_errors [] [] 2000 stFresh "manual" 1280).2.2.2 rfl (by decide)).2

/-! ## Response-identifier claims -/

theorem hexVal_hexDigitU (d : Nat) (hd : d < 16) : hexVal (hexDigitU d) = some d := by
  interval_cases d <;> decide

theorem natHexUAux_ne_nil (f n : Nat) (hf : 0 < f) : natHexUAux f n ≠ [] := by
  cases f with
  | zero => omega
  | succ f =>
    unfold natHexUAux
    split
    · simp
    · simp

theorem natHexUAux_goodHex (f : Nat) : ∀ n, n < f → ∀ c ∈ natHexUAux f n, (hexVal c).isSome := by
  induction f with
  | zero => intro n hn; omega
  | succ f ih =>
    intro n hn c hc
    unfold natHexUAux at hc
    by_cases h16 : n < 16
    · rw [if_pos h16] at hc
      simp only [List.mem_singleton] at hc
      rw [hc, hexVal_hexDigitU n h16]
      rfl
    · rw [if_neg h16] at hc
      rcases List.mem_append.mp hc with h | h
      · exact ih (n / 16) (lt_of_lt_of_le (Nat.div_lt_self (by omega) (by omega)) (by omega)) c h
      · simp only [List.mem_singleton] at h
        rw [h, hexVal_hexDigitU (n % 16) (Nat.mod_lt n (by omega))]
        rfl

theorem natHexU_goodHex (n : Nat) : ∀ c ∈ natHexU n, (hexVal c).isSome :=
  natHexUAux_goodHex (n + 1) n (Nat.lt_succ_self n)

theorem parseDigitsCore_snoc (b : Nat) (v : Char → Option Nat) (xs : List Char) (c : Char) :
    parseDigitsCore b v (xs ++ [c]) = digitStep b v (parseDigitsCore b v xs) c := by
  simp [parseDigitsCore, List.foldl_append]

theorem parseDigitsCore_natHexUAux (f : Nat) :
    ∀ n, n < f → parseDigitsCore 16 hexVal (natHexUAux f n) = some n := by
  induction f with
  | zero => intro n hn; omega
  | succ f ih =>
    intro n hn
    unfold natHexUAux
    by_cases h16 : n < 16
    · rw [if_pos h16]
      simp [parseDigitsCore, digitStep, hexVal_hexDigitU n h16]
    · rw [if_neg h16]
      rw [parseDigitsCore_snoc,
        ih (n / 16) (lt_of_lt_of_le (Nat.div_lt_self (by omega) (by omega)) (by omega))]
      simp [digitStep, hexVal_hexDigitU (n % 16) (Nat.mod_lt n (by omega))]
      omega

theorem parseDigitsCore_natHexU (n : Nat) :
    parseDigitsCore 16 hexVal (natHexU n) = some n :=
  parseDigitsCore_natHexUAux (n + 1) n (Nat.lt_succ_self n)

theorem foldl_digitStep_zeros (k : Nat) :
    (List.replicate k '0').foldl (digitStep 16 hexVal) (some 0) = some 0 := by
  induction k with
  | zero => rfl
  | succ k ih =>
    rw [List.replicate_succ, List.foldl_cons]
    have hstep : digitStep 16 hexVal (some 0) '0' = some 0 := by decide
    rw [hstep, ih]

theorem parseDigitsCore_pad_zeros (k : Nat) (l : List Char) :
    parseDigitsCore 16 hexVal (List.replicate k '0' ++ l) = parseDigitsCore 16 hexVal l := by
  unfold parseDigitsCore
  rw [List.foldl_append, foldl_digitStep_zeros]

/-- Round trip: the reader loop renders a received identifier as
`f"{ID:03X}"`, and the sequencer's `int(msg['id'], 16)` recovers exactly
that identifier. -/
theorem pyIntBase16_fmt03X (n : Nat) : pyIntBase16 (fmt03X n) = some (n : Int) := by
  unfold pyIntBase16 pySigned fmt03X pyUnsignedBase16
  have hmem : ∀ c ∈ List.replicate (3 - (natHexU n).length) '0' ++ natHexU n,
      (hexVal c).isSome := by
    intro c hc
    rcases List.mem_append.mp hc with h | h
    · rw [List.eq_of_mem_replicate h]
      rfl
    · exact natHexU_goodHex n c h
  have hnotc : ∀ c : Char, (hexVal c).isSome →
      c ≠ '+' ∧ c ≠ '-' ∧ c ≠ 'x' ∧ c ≠ 'X' := by
    intro c hc
    refine ⟨?_, ?_, ?_, ?_⟩ <;> (rintro rfl; simp [hexVal] at hc)
  dsimp only
  rw [if_neg, if_neg, if_neg]
  · rw [show parseDigits 16 hexVal (List.replicate (3 - (natHexU n).length) '0' ++ natHexU n)
        = some n from ?_]
    · rfl
    · unfold parseDigits
      rw [if_neg, parseDigitsCore_pad_zeros, parseDigitsCore_natHexU]
      intro hemp
      exact natHexUAux_ne_nil (n + 1) n (Nat.succ_pos n)
        (List.append_eq_nil.mp hemp).2
  · rintro (htake | htake)
    · have hx : 'x' ∈ List.replicate (3 - (natHexU n).length) '0' ++ natHexU n :=
        List.take_subset 2 _ (htake ▸ (by simp : 'x' ∈ (['0', 'x'] : List Char)))
      exact absurd (hmem 'x' hx) (by simp [hexVal])
    · have hx : 'X' ∈ List.replicate (3 - (natHexU n).length) '0' ++ natHexU n :=
        List.take_subset 2 _ (htake ▸ (by simp : 'X' ∈ (['0', 'X'] : List Char)))
      exact absurd (hmem 'X' hx) (by simp [hexVal])
  · intro hhead
    have h := hmem '-' (List.mem_of_mem_head? hhead)
    simp [hexVal] at h
  · intro hhead
    have h := hmem '+' (List.mem_of_mem_head? hhead)
    simp [hexVal] at h

/-- The buffer drain records exactly the frames whose identifier parses to
one of the two accepted response identifiers. -/
theorem correlate_length (b : Int) (sid : String) (w : List Msg) :
    (correlate (allowed_response_ids b) sid w).length = (w.filter (acceptMsg b)).length := by
  induction w with
  | nil => rfl
  | cons m w ih =>
    unfold correlate at ih ⊢
    rw [List.filterMap_cons, List.filter_cons]
    cases hm : pyIntBase16 m.id with
    | none =>
      have hacc : acceptMsg b m = false := by simp [acceptMsg, hm]
      simp only [hacc]
      simpa using ih
    | some mid =>
      by_cases hin : mid ∈ allowed_response_ids b
      · have hacc : acceptMsg b m = true := by
          simp only [allowed_response_ids, List.mem_cons, List.mem_singleton,
            List.not_mem_nil, or_false] at hin
          simp [acceptMsg, hm, hin]
        simp only [hin, if_pos, hacc, if_true, List.length_cons]
        simpa using ih
      · have hacc : acceptMsg b m = false := by
          simp only [allowed_response_ids, List.mem_cons, List.mem_singleton,
            List.not_mem_nil, or_false, not_or] at hin
          simp [acceptMsg, hm, hin.1, hin.2]
        simp only [hin, if_neg, hacc, if_false]
        simpa using ih

/-- Every recorded response carries one of the two accepted identifiers. -/
theorem correlate_response_id (b : Int) (sid : String) (w : List Msg) :
    ∀ r ∈ correlate (allowed_response_ids b) sid w,
      r.response_id = "0x" ++ fmtX (b + 129) ∨ r.response_id = "0x" ++ fmtX (b + 130) := by
  intro r hr
  unfold correlate at hr
  rw [List.mem_filterMap] at hr
  obtain ⟨m, _, heq⟩ := hr
  cases hm : pyIntBase16 m.id with
  | none => rw [hm] at heq; exact absurd heq (by simp)
  | some mid =>
    rw [hm] at heq
    dsimp only at heq
    by_cases hin : mid ∈ allowed_response_ids b
    · rw [if_pos hin] at heq
      have hrid : r.response_id = "0x" ++ fmtX mid := by
        cases heq
        rfl
      simp only [allowed_response_ids, List.mem_cons, List.mem_singleton,
        List.not_mem_nil, or_false] at hin
      rcases hin with h | h <;> [left; right] <;> rw [hrid, h]
    · rw [if_neg hin] at heq
      exact absurd heq (by simp)

/-- C4: during a sequence run with base identifier `B`, the accepted response
identifiers are exactly `B + 129` and `B + 130`: the number of recorded
correlated responses equals the number of drained frames whose identifier
parses to one of those two values, summed over every per-command wait window
and the post-sequence listening window; every recorded response carries one
of the two identifiers; and on the reader's own rendering of a received CAN
identifier the acceptance test is exactly membership in `{B+129, B+130}`. -/
theorem C4_accepted_response_ids (initialized : Bool) (commands : List Command)
    (base_id : Int) (dev : Nat → Nat) (windows : Nat → List Msg) (post : List Msg)
    (dur : String) :
    allowed_response_ids base_id = [base_id + 129, base_id + 130] ∧
    (timer_write_loop initialized commands base_id dev windows post dur).2.length =
      ((List.range (expandSends commands).length).map
        (fun i => ((windows i).filter (acceptMsg base_id)).length)).sum +
      (post.filter (acceptMsg base_id)).length ∧
    (∀ r ∈ (timer_write_loop initialized commands base_id dev windows post dur).2,
      r.response_id = "0x" ++ fmtX (base_id + 129) ∨
      r.response_id = "0x" ++ fmtX (base_id + 130)) ∧
    (∀ ID : Nat, ∀ t : String, ∀ d : List Nat, ∀ ts : Nat,
      acceptMsg base_id (readerMsg ID t d ts) = true ↔
        ((ID : Int) = base_id + 129 ∨ (ID : Int) = base_id + 130)) := by
  refine ⟨rfl, ?_, ?_, ?_⟩
  · unfold timer_write_loop
    dsimp only
    rw [List.length_append, List.length_flatten, List.map_map, List.map_map]
    congr 1
    · apply congrArg List.sum
      apply List.map_congr_left
      intro i _
      simp only [Function.comp_apply, run_one_send]
      exact correlate_length base_id _ (windows i)
    · exact correlate_length base_id _ post
  · unfold timer_write_loop
    dsimp only
    intro r hr
    rcases List.mem_append.mp hr with h | h
    · rw [List.mem_flatten] at h
      obtain ⟨l, hl, hrl⟩ := h
      rw [List.mem_map] at hl
      obtain ⟨pr, hpr, rfl⟩ := hl
      rw [List.mem_map] at hpr
      obtain ⟨i, _, rfl⟩ := hpr
      exact correlate_response_id base_id _ (windows i) r hrl
    · exact correlate_response_id base_id _ post r h
  · intro ID t d ts
    unfold acceptMsg readerMsg
    dsimp only
    rw [pyIntBase16_fmt03X]
    simp

/-- Witness for C4: one command repeated twice with base id `0x500`; a frame
with identifier `0x581` drained in each wait window is counted in both
windows, and the reader-rendered identifier `0x581` passes the acceptance
test. -/
theorem C4_witness :
    (timer_write_loop false [⟨0x123, [1, 2], 100, 2⟩] 0x500 (fun _ => 0)
        (fun _ => [readerMsg 0x581 "DATA" [1] 0]) [] "0").2.length = 2 ∧
    acceptMsg 0x500 (readerMsg 0x581 "DATA" [1] 0) = true := by
  constructor
  · rw [(C4_accepted_response_ids false [⟨0x123, [1, 2], 100, 2⟩] 0x500 (fun _ => 0)
      (fun _ => [readerMsg 0x581 "DATA" [1] 0]) [] "0").2.1]
    decide
  · exact ((C4_accepted_response_ids false [⟨0x123, [1, 2], 100, 2⟩] 0x500 (fun _ => 0)
      (fun _ => [readerMsg 0x581 "DATA" [1] 0]) [] "0").2.2.2 0x581 "DATA" [1] 0).mpr
      (Or.inl (by decide))

/-! ## Connectionless-sequence claims -/

theorem run_one_send_not_init (c : Command) (dev : Nat) (window : List Msg)
    (allowed : List Int) :
    (run_one_send false c dev window allowed).1 =
      ⟨"error", "Failed Sent: PCAN not initialized"⟩ := rfl

theorem expandSends_length (commands : List Command) :
    (expandSends commands).length = total_expected commands := by
  unfold expandSends total_expected
  rw [List.length_flatMap]
  congr 1
  apply List.map_congr_left
  intro c _
  simp

/-- C10: `start_timer_sequence` does not require an active connection: on a
disconnected service a non-empty script still starts (the run flag is set);
each transmission then fails inside `write_message` with the not-initialized
result and contributes exactly one `error` log entry; and the loop still
walks every command and repeat (one entry per scheduled send) before
emitting the `Sequence Finished` marker and the summary, rather than
aborting. -/
theorem C10_sequence_without_connection (st : ServiceState) (mode : String)
    (rows : List (List String)) (d b : Int) (dev : Nat → Nat)
    (windows : Nat → List Msg) (post : List Msg) (dur : String)
    (hinit : st.initialized = false) (hrun : st.timer_running = false)
    (hcmds : parse_commands rows d ≠ []) :
    (start_timer_sequence st mode rows d b).1.success = true ∧
    (start_timer_sequence st mode rows d b).2.timer_running = true ∧
    (timer_write_loop false (parse_commands rows d) b dev windows post dur).1 =
      ⟨"info", "Starting Sequence..."⟩ ::
        (List.replicate (total_expected (parse_commands rows d))
            (⟨"error", "Failed Sent: PCAN not initialized"⟩ : LogEntry) ++
          ⟨"info", "Sequence Finished"⟩ ::
            summary_logs dur (total_expected (parse_commands rows d))
              (timer_write_loop false (parse_commands rows d) b dev windows post dur).2) ∧
    (expandSends (parse_commands rows d)).length = total_expected (parse_commands rows d) := by
  refine ⟨?_, ?_, ?_, expandSends_length _⟩
  · unfold start_timer_sequence
    simp [hrun, hcmds]
  · unfold start_timer_sequence
    simp [hrun, hcmds]
  · unfold timer_write_loop
    dsimp only
    rw [List.map_map]
    have hmap : (List.range (expandSends (parse_commands rows d)).length).map
        (Prod.fst ∘ fun i =>
          run_one_send false ((expandSends (parse_commands rows d)).getD i ⟨0, [], 0, 1⟩)
            (dev i) (windows i) (allowed_response_ids b)) =
        (List.range (expandSends (parse_commands rows d)).length).map
          (fun _ => (⟨"error", "Failed Sent: PCAN not initialized"⟩ : LogEntry)) :=
      List.map_congr_left (fun i _ => run_one_send_not_init _ _ _ _)
    rw [hmap, List.map_const', List.length_range, expandSends_length]
    rfl

/-- Witness for C10: a one-command, repeat-2 script starts on the fresh
(unconnected) service and schedules exactly two sends. -/
theorem C10_witness :
    (start_timer_sequence stFresh "manual"
        [["0x123", "0x0102", "0x030405060708", "100", "2"]] 2000 1280).1.success = true ∧
    (start_timer_sequence stFresh "manual"
        [["0x123", "0x0102", "0x030405060708", "100", "2"]] 2000 1280).2.timer_running = true ∧
    (expandSends (parse_commands [["0x123", "0x0102", "0x030405060708", "100", "2"]] 2000)).length
      = total_expected (parse_commands [["0x123", "0x0102", "0x030405060708", "100", "2"]] 2000) := by
  have h := C10_sequence_without_connection stFresh "manual"
    [["0x123", "0x0102", "0x030405060708", "100", "2"]] 2000 1280
    (fun _ => 0) (fun _ => []) [] "0.00" rfl rfl (by decide)
  exact ⟨h.1, h.2.1, h.2.2.2⟩

/-! ## Session-log JSON claims -/

/-- The file effect of a successful `initialize` is exactly `initStream`. -/
theorem initializeService_file (st : ServiceState) (ch br : String) (ts : List Char)
    (h1 : st.pcan_available = true) (h2 : ch ∈ channel_map) (h3 : br ∈ baudrate_map) :
    (initializeService st ch br PCAN_ERROR_OK ts).2.file = some (initStream st.file ts) := by
  unfold initializeService
  rw [if_neg (by simp [h1]), if_neg (by simp [h2]), if_neg (by simp [h3]),
    if_pos (Or.inl rfl)]
  unfold applyFinally
  dsimp only
  split <;> rfl

/-- The file effect of `release` on a recording connection is exactly
`closeStream`, regardless of the device's uninitialize status. -/
theorem release_file (st : ServiceState) (r : Nat) (ts : List Char)
    (h : st.initialized = true) (hrec : st.recording = true) (hso : st.stream_open = true) :
    (release st r ts).2.file = some (closeStream (st.file.getD []) ts) := by
  unfold release
  rw [if_pos h]
  dsimp only
  rw [if_pos (⟨hrec, hso⟩ : _ ∧ _)]
  split <;> rfl

theorem comma_indent_data : (",\n".data ++ "    ".data : List Char) = ",\n    ".data := rfl

theorem write_records_false (rs : List (List Char)) : ∀ c : List Char,
    (write_records c false rs).1 = c ++ rs.flatMap (fun x => ",\n    ".data ++ x) := by
  induction rs with
  | nil => intro c; simp [write_records]
  | cons r rest ih =>
    intro c
    show (write_records (c ++ ",\n".data ++ "    ".data ++ r) false rest).1 = _
    rw [ih]
    rw [List.flatMap_cons, ← comma_indent_data]
    simp [List.append_assoc]

theorem write_records_spec (rs : List (List Char)) (c : List Char) :
    (write_records c true rs).1 = c ++ recordsChars rs := by
  cases rs with
  | nil => simp [write_records, recordsChars]
  | cons r rest =>
    show (write_records (c ++ [] ++ "    ".data ++ r) false rest).1 = _
    rw [write_records_false]
    simp [recordsChars, List.append_assoc]

theorem newline_comma_data : ("\n,\n".data : List Char) = '\n' :: ",\n".data := rfl

theorem session_cycle_none (s : Session) :
    session_cycle none s = "[\n".data ++ sessionChars s ++ "\n]".data := by
  unfold session_cycle closeStream initStream sessionChars
  rw [write_records_spec]
  simp [List.append_assoc]

theorem session_cycle_some (mid : List Char) (s : Session) :
    session_cycle (some ("[\n".data ++ mid ++ "\n]".data)) s =
      "[\n".data ++ (mid ++ "\n,\n".data ++ sessionChars s) ++ "\n]".data := by
  unfold session_cycle closeStream initStream sessionChars
  rw [write_records_spec]
  have hshape : ("[\n".data ++ mid ++ "\n]".data : List Char) =
      ("[\n".data ++ mid ++ ['\n']) ++ [']'] := by
    simp [List.append_assoc]
  rw [hshape]
  dsimp only
  have hcond : 1 < (("[\n".data ++ mid ++ ['\n']) ++ [']']).length ∧
      (("[\n".data ++ mid ++ ['\n']) ++ [']']).getLast? = some ']' := by
    constructor
    · simp
    · exact List.getLast?_concat _
  rw [if_pos hcond, List.dropLast_concat]
  simp [newline_comma_data, List.append_assoc]

theorem run_sessions_acc (ss : List Session) : ∀ mid : List Char,
    run_sessions (some ("[\n".data ++ mid ++ "\n]".data)) ss =
      some ("[\n".data ++
        (mid ++ ss.flatMap (fun s => "\n,\n".data ++ sessionChars s)) ++ "\n]".data) := by
  induction ss with
  | nil => intro mid; simp [run_sessions]
  | cons s rest ih =>
    intro mid
    show run_sessions (some (session_cycle (some ("[\n".data ++ mid ++ "\n]".data)) s)) rest = _
    rw [session_cycle_some, ih (mid ++ "\n,\n".data ++ sessionChars s)]
    rw [List.flatMap_cons]
    simp [List.append_assoc]

theorem run_sessions_content (s : Session) (rest : List Session) :
    run_sessions none (s :: rest) =
      some ("[\n".data ++
        (sessionChars s ++ rest.flatMap (fun t => "\n,\n".data ++ sessionChars t)) ++
        "\n]".data) := by
  show run_sessions (some (session_cycle none s)) rest = _
  rw [session_cycle_none, run_sessions_acc rest (sessionChars s)]

theorem data_rec_open : ("\x7b\"id\": \"".data : List Char) =
    '\x7b' :: '"' :: 'i' :: 'd' :: '"' :: ':' :: ' ' :: '"' :: [] := rfl

theorem data_rec_mid1 : ("\", \"data\": \"".data : List Char) =
    '"' :: ',' :: ' ' :: '"' :: 'd' :: 'a' :: 't' :: 'a' :: '"' :: ':' :: ' ' :: '"' :: [] := rfl

theorem data_rec_mid2 : ("\", \"timestamp\": \"".data : List Char) =
    '"' :: ',' :: ' ' :: '"' :: 't' :: 'i' :: 'm' :: 'e' :: 's' :: 't' :: 'a' :: 'm' :: 'p' ::
      '"' :: ':' :: ' ' :: '"' :: [] := rfl

theorem data_rec_close : ("\"\x7d".data : List Char) = '"' :: '\x7d' :: [] := rfl

theorem data_id : ("id".data : List Char) = 'i' :: 'd' :: [] := rfl

theorem data_data : ("data".data : List Char) = 'd' :: 'a' :: 't' :: 'a' :: [] := rfl

theorem data_timestamp : ("timestamp".data : List Char) =
    't' :: 'i' :: 'm' :: 'e' :: 's' :: 't' :: 'a' :: 'm' :: 'p' :: [] := rfl

theorem record_value_text (id data ts : List Char) (hid : id.all jsonPlainChar = true)
    (hdata : data.all jsonPlainChar = true) (hts : ts.all jsonPlainChar = true) :
    JsonValueText
      (Json.obj [("id", Json.str ⟨id⟩), ("data", Json.str ⟨data⟩), ("timestamp", Json.str ⟨ts⟩)])
      (dumpsRecord id data ts) := by
  have e1 : JsonElementText (Json.str ⟨id⟩) ([' '] ++ ('"' :: (id ++ ['"'])) ++ []) :=
    JsonElementText.mk [' '] [] _ _ rfl rfl (JsonValueText.str id hid)
  have e2 : JsonElementText (Json.str ⟨data⟩) ([' '] ++ ('"' :: (data ++ ['"'])) ++ []) :=
    JsonElementText.mk [' '] [] _ _ rfl rfl (JsonValueText.str data hdata)
  have e3 : JsonElementText (Json.str ⟨ts⟩) ([' '] ++ ('"' :: (ts ++ ['"'])) ++ []) :=
    JsonElementText.mk [' '] [] _ _ rfl rfl (JsonValueText.str ts hts)
  have m1 : JsonMemberText ("id", Json.str ⟨id⟩)
      ([] ++ '"' :: "id".data ++ '"' :: ([] ++ ':' :: ([' '] ++ ('"' :: (id ++ ['"'])) ++ []))) :=
    JsonMemberText.mk [] [] "id".data _ _ rfl rfl (by decide) e1
  have m2 : JsonMemberText ("data", Json.str ⟨data⟩)
      ([' '] ++ '"' :: "data".data ++ '"' :: ([] ++ ':' :: ([' '] ++ ('"' :: (data ++ ['"'])) ++ []))) :=
    JsonMemberText.mk [' '] [] "data".data _ _ rfl rfl (by decide) e2
  have m3 : JsonMemberText ("timestamp", Json.str ⟨ts⟩)
      ([' '] ++ '"' :: "timestamp".data ++ '"' :: ([] ++ ':' :: ([' '] ++ ('"' :: (ts ++ ['"'])) ++ []))) :=
    JsonMemberText.mk [' '] [] "timestamp".data _ _ rfl rfl (by decide) e3
  have mm := JsonMembersText.cons _ _ _ _ m1 (JsonMembersText.cons _ _ _ _ m2
    (JsonMembersText.single _ _ m3))
  have hv := JsonValueText.obj _ _ mm
  have he : ('\x7b' :: ((([] ++ '"' :: "id".data ++ '"' :: ([] ++ ':' :: ([' '] ++ ('"' :: (id ++ ['"'])) ++ []))) ++
      ',' :: (([' '] ++ '"' :: "data".data ++ '"' :: ([] ++ ':' :: ([' '] ++ ('"' :: (data ++ ['"'])) ++ []))) ++
        ',' :: ([' '] ++ '"' :: "timestamp".data ++ '"' :: ([] ++ ':' :: ([' '] ++ ('"' :: (ts ++ ['"'])) ++ []))))) ++
      ['\x7d'])) = dumpsRecord id data ts := by
    simp only [dumpsRecord, data_rec_open, data_rec_mid1, data_rec_mid2, data_rec_close,
      data_id, data_data, data_timestamp, List.nil_append, List.append_nil,
      List.cons_append, List.append_assoc, List.singleton_append]
  exact he ▸ hv

theorem elemsCongr {vs : List Json} {cs cs' : List Char} (h : JsonElementsText vs cs)
    (he : cs = cs') : JsonElementsText vs cs' := he ▸ h

theorem valueCongr {v : Json} {cs cs' : List Char} (h : JsonValueText v cs)
    (he : cs = cs') : JsonValueText v cs' := he ▸ h

theorem data_comma_nl_indent : (",\n    ".data : List Char) =
    ',' :: '\n' :: ' ' :: ' ' :: ' ' :: ' ' :: [] := rfl

theorem data_indent : ("    ".data : List Char) = ' ' :: ' ' :: ' ' :: ' ' :: [] := rfl

theorem data_nl_indent : ("\n    ".data : List Char) = '\n' :: ' ' :: ' ' :: ' ' :: ' ' :: [] := rfl

/-- Elements chain for the non-empty record list of one session's messages
array, laid out exactly as the reader writes it. -/
theorem records_elems (rest : List FrameRecord) : ∀ r : FrameRecord,
    r.id.all jsonPlainChar = true → r.data.all jsonPlainChar = true →
    r.ts.all jsonPlainChar = true →
    (∀ x ∈ rest, x.id.all jsonPlainChar = true ∧ x.data.all jsonPlainChar = true ∧
      x.ts.all jsonPlainChar = true) →
    JsonElementsText ((r :: rest).map FrameRecord.json)
      (('\n' :: ' ' :: ' ' :: ' ' :: ' ' :: []) ++ r.dumps ++
        rest.flatMap (fun x => ",\n    ".data ++ x.dumps) ++
        ('\n' :: ' ' :: ' ' :: ' ' :: ' ' :: [])) := by
  induction rest with
  | nil =>
    intro r h1 h2 h3 _
    have e := JsonElementText.mk ('\n' :: ' ' :: ' ' :: ' ' :: ' ' :: [])
      ('\n' :: ' ' :: ' ' :: ' ' :: ' ' :: []) r.dumps _ (by decide) (by decide)
      (record_value_text r.id r.data r.ts h1 h2 h3)
    have hs := JsonElementsText.single _ _ e
    exact elemsCongr hs (by simp [List.append_assoc])
  | cons x rest2 ih =>
    intro r h1 h2 h3 hrest
    have hx := hrest x (by simp)
    have hrest2 : ∀ y ∈ rest2, y.id.all jsonPlainChar = true ∧
        y.data.all jsonPlainChar = true ∧ y.ts.all jsonPlainChar = true := by
      intro y hy
      exact hrest y (by simp [hy])
    have e := JsonElementText.mk ('\n' :: ' ' :: ' ' :: ' ' :: ' ' :: []) [] r.dumps _
      (by decide) rfl (record_value_text r.id r.data r.ts h1 h2 h3)
    have hch := JsonElementsText.cons _ _ _ _ e (ih x hx.1 hx.2.1 hx.2.2 hrest2)
    exact elemsCongr hch (by
      simp [data_comma_nl_indent, List.append_assoc])

theorem flatMap_dumps (ys : List FrameRecord) :
    (ys.map FrameRecord.dumps).flatMap (fun x => ',' :: '\n' :: ' ' :: ' ' :: ' ' :: ' ' :: x) =
      ys.flatMap (fun x => ',' :: '\n' :: ' ' :: ' ' :: ' ' :: ' ' :: x.dumps) := by
  induction ys with
  | nil => rfl
  | cons y ys ih => simp only [List.map_cons, List.flatMap_cons, ih]

theorem messages_array_text (recs : List FrameRecord)
    (hgood : ∀ x ∈ recs, x.id.all jsonPlainChar = true ∧ x.data.all jsonPlainChar = true ∧
      x.ts.all jsonPlainChar = true) :
    JsonValueText (Json.arr (recs.map FrameRecord.json))
      ('[' :: ((['\n'] ++ recordsChars (recs.map FrameRecord.dumps) ++ "\n    ".data) ++ [']'])) := by
  cases recs with
  | nil =>
    have h := JsonValueText.arrEmpty ('\n' :: '\n' :: ' ' :: ' ' :: ' ' :: ' ' :: []) (by decide)
    exact valueCongr h (by simp [recordsChars, data_nl_indent])
  | cons r rest =>
    have hr := hgood r (by simp)
    have hrest : ∀ x ∈ rest, x.id.all jsonPlainChar = true ∧ x.data.all jsonPlainChar = true ∧
        x.ts.all jsonPlainChar = true := fun x hx => hgood x (by simp [hx])
    have hch := records_elems rest r hr.1 hr.2.1 hr.2.2 hrest
    have hv := JsonValueText.arr _ _ hch
    refine valueCongr hv ?_
    simp [recordsChars, data_indent, data_nl_indent, data_comma_nl_indent, flatMap_dumps,
      List.append_assoc]

theorem data_header_1 : ("  \x7b\n    \"initializationTime\": \"".data : List Char) =
    [' ', ' ', '\x7b', '\n', ' ', ' ', ' ', ' ', '"'] ++ "initializationTime".data ++
      ['"', ':', ' ', '"'] := rfl

theorem data_header_2 : ("\",\n    \"messages\": [\n".data : List Char) =
    ['"', ',', '\n', ' ', ' ', ' ', ' ', '"'] ++ "messages".data ++
      ['"', ':', ' ', '[', '\n'] := rfl

theorem data_close_1 : ("\n    ],\n    \"releaseTime\": \"".data : List Char) =
    ['\n', ' ', ' ', ' ', ' ', ']', ',', '\n', ' ', ' ', ' ', ' ', '"'] ++
      "releaseTime".data ++ ['"', ':', ' ', '"'] := rfl

theorem data_close_2 : ("\"\n  \x7d".data : List Char) = ['"', '\n', ' ', ' ', '\x7d'] := rfl

/-- One cleanly closed session's text is two indent spaces followed by a
well-formed JSON object text denoting `s.json`. -/
theorem session_value_text (s : Session) (hgood : s.Good) :
    ∃ oc, sessionChars s = ' ' :: ' ' :: oc ∧ JsonValueText s.json oc := by
  obtain ⟨h1, h2, h3⟩ := hgood
  have earr : JsonValueText (Json.arr (s.recs.map FrameRecord.json))
      ('[' :: ((['\n'] ++ recordsChars (s.recs.map FrameRecord.dumps) ++ "\n    ".data) ++ [']'])) :=
    messages_array_text s.recs h3
  have e1 : JsonElementText (Json.str ⟨s.initTs⟩) ([' '] ++ ('"' :: (s.initTs ++ ['"'])) ++ []) :=
    JsonElementText.mk [' '] [] _ _ rfl rfl (JsonValueText.str s.initTs h1)
  have e2 : JsonElementText (Json.arr (s.recs.map FrameRecord.json))
      ([' '] ++ ('[' :: ((['\n'] ++ recordsChars (s.recs.map FrameRecord.dumps) ++ "\n    ".data) ++ [']'])) ++ []) :=
    JsonElementText.mk [' '] [] _ _ rfl rfl earr
  have e3 : JsonElementText (Json.str ⟨s.relTs⟩)
      ([' '] ++ ('"' :: (s.relTs ++ ['"'])) ++ ['\n', ' ', ' ']) :=
    JsonElementText.mk [' '] ['\n', ' ', ' '] _ _ rfl (by decide)
      (JsonValueText.str s.relTs h2)
  have m1 : JsonMemberText ("initializationTime", Json.str ⟨s.initTs⟩)
      (['\n', ' ', ' ', ' ', ' '] ++ '"' :: "initializationTime".data ++
        '"' :: ([] ++ ':' :: ([' '] ++ ('"' :: (s.initTs ++ ['"'])) ++ []))) :=
    JsonMemberText.mk ['\n', ' ', ' ', ' ', ' '] [] "initializationTime".data _ _
      (by decide) rfl (by decide) e1
  have m2 : JsonMemberText ("messages", Json.arr (s.recs.map FrameRecord.json))
      (['\n', ' ', ' ', ' ', ' '] ++ '"' :: "messages".data ++
        '"' :: ([] ++ ':' :: ([' '] ++ ('[' :: ((['\n'] ++ recordsChars (s.recs.map FrameRecord.dumps) ++ "\n    ".data) ++ [']'])) ++ []))) :=
    JsonMemberText.mk ['\n', ' ', ' ', ' ', ' '] [] "messages".data _ _
      (by decide) rfl (by decide) e2
  have m3 : JsonMemberText ("releaseTime", Json.str ⟨s.relTs⟩)
      (['\n', ' ', ' ', ' ', ' '] ++ '"' :: "releaseTime".data ++
        '"' :: ([] ++ ':' :: ([' '] ++ ('"' :: (s.relTs ++ ['"'])) ++ ['\n', ' ', ' ']))) :=
    JsonMemberText.mk ['\n', ' ', ' ', ' ', ' '] [] "releaseTime".data _ _
      (by decide) rfl (by decide) e3
  have mm := JsonMembersText.cons _ _ _ _ m1 (JsonMembersText.cons _ _ _ _ m2
    (JsonMembersText.single _ _ m3))
  have hv := JsonValueText.obj _ _ mm
  refine ⟨_, ?_, hv⟩
  unfold sessionChars sessionHeader closeBody
  simp only [data_header_1, data_header_2, data_close_1, data_close_2, data_nl_indent,
    List.nil_append, List.append_nil, List.cons_append, List.append_assoc,
    List.singleton_append]

/-- Elements chain for the top-level array of sessions. -/
theorem sessions_elems (rest : List Session) : ∀ s : Session, s.Good →
    (∀ t ∈ rest, t.Good) →
    JsonElementsText ((s :: rest).map Session.json)
      (('\n' :: sessionChars s) ++
        rest.flatMap (fun t => '\n' :: ',' :: '\n' :: sessionChars t) ++ ['\n']) := by
  induction rest with
  | nil =>
    intro s hs _
    obtain ⟨oc, hdec, hv⟩ := session_value_text s hs
    have e := JsonElementText.mk ['\n', ' ', ' '] ['\n'] oc _ (by decide) (by decide) hv
    have hsingle := JsonElementsText.single _ _ e
    refine elemsCongr hsingle ?_
    rw [hdec]
    simp [List.append_assoc]
  | cons x rest2 ih =>
    intro s hs hrest
    obtain ⟨oc, hdec, hv⟩ := session_value_text s hs
    have e := JsonElementText.mk ['\n', ' ', ' '] ['\n'] oc _ (by decide) (by decide) hv
    have hch := JsonElementsText.cons _ _ _ _ e
      (ih x (hrest x (by simp)) (fun t ht => hrest t (by simp [ht])))
    refine elemsCongr hch ?_
    rw [hdec]
    simp [List.append_assoc]

/-- C3: starting from a non-existent log file, N ≥ 1 cleanly closed
initialize/record/release cycles produce file contents that are a
well-formed JSON array text of exactly N session objects (the writer strips
the previous trailing close-bracket and inserts a separating comma on each
reopen). -/
theorem C3_sessions_parse_as_json_array (ss : List Session) (hne : ss ≠ [])
    (hgood : ∀ s ∈ ss, s.Good) :
    ∃ content, run_sessions none ss = some content ∧
      JsonValueText (Json.arr (ss.map Session.json)) content ∧
      (ss.map Session.json).length = ss.length ∧
      (∀ v ∈ ss.map Session.json, ∃ ms, v = Json.obj ms) := by
  cases ss with
  | nil => exact absurd rfl hne
  | cons s rest =>
    refine ⟨_, run_sessions_content s rest, ?_, by simp, ?_⟩
    · have hch := sessions_elems rest s (hgood s (by simp))
        (fun t ht => hgood t (by simp [ht]))
      have hv := JsonValueText.arr _ _ hch
      refine valueCongr hv ?_
      have hfl : rest.flatMap (fun t => '\n' :: ',' :: '\n' :: sessionChars t) =
          rest.flatMap (fun t => "\n,\n".data ++ sessionChars t) := rfl
      have hbracket : ("[\n".data : List Char) = ['[', '\n'] := rfl
      have hclose : ("\n]".data : List Char) = ['\n', ']'] := rfl
      rw [hfl]
      simp [hbracket, hclose, List.append_assoc]
    · intro v hv
      rw [List.mem_map] at hv
      obtain ⟨t, _, rfl⟩ := hv
      exact ⟨_, rfl⟩

/-- Witness for C3: one concrete session with one recorded frame parses as a
one-element JSON array of session objects. -/
theorem C3_witness :
    ∃ content,
      run_sessions none [⟨"2024-01-01T00:00:00".data,
        [⟨"021".data, "01 02".data, "2024-01-01T00:00:01".data⟩],
        "2024-01-01T00:00:02".data⟩] = some content ∧
      JsonValueText
        (Json.arr ([(⟨"2024-01-01T00:00:00".data,
          [⟨"021".data, "01 02".data, "2024-01-01T00:00:01".data⟩],
          "2024-01-01T00:00:02".data⟩ : Session)].map Session.json)) content := by
  obtain ⟨c, h1, h2, _, _⟩ := C3_sessions_parse_as_json_array
    [⟨"2024-01-01T00:00:00".data,
      [⟨"021".data, "01 02".data, "2024-01-01T00:00:01".data⟩],
      "2024-01-01T00:00:02".data⟩]
    (by decide) (by decide)
  exact ⟨c, h1, h2⟩

end TPMS
